import Mathlib

/-!
# Verification of `ai_clinic_timesaver.py` — Estimate Resolution and Fallback

Shallow embedding of the estimate-resolution pipeline of
`src/ai_clinic_timesaver.py` (a single Streamlit script) and proofs of the
spec's claims about it.

Modelling conventions:
* Python numbers are embedded as `ℚ` (ints as `ℕ` where the source bounds
  them to positive ranges); Python floats are modelled as exact rationals.
* `np.random.uniform(a, b)` draws are modelled as explicit parameters
  carrying a hypothesis that they lie in the draw's range.
* The outcome of the remote OpenAI call together with `json.loads` is a
  `RemoteOutcome` parameter: no credential, an exception raised inside the
  `try` block (network error or `json.loads` failure on a non-JSON body),
  or a successfully parsed JSON value.
* A Python expression that raises an unhandled exception is modelled by
  `Option`, with `none` meaning the script aborts.
-/

set_option autoImplicit false

namespace AiClinicTimesaver

/-- The three bounded numeric inputs of the page
(`clinic_size`, `patients_per_week`, `admin_hours_per_week`,
lines 67–71 of the source). -/
structure ClinicParameters where
  clinician_count : ℕ
  patients_per_week : ℕ
  admin_hours_per_week : ℕ
deriving DecidableEq, Repr

/-- The widget bounds of lines 67–71: clinicians in [1,100], patients in
[10,1000], admin hours in [1,50]. -/
def ClinicParameters.Valid (p : ClinicParameters) : Prop :=
  1 ≤ p.clinician_count ∧ p.clinician_count ≤ 100 ∧
  10 ≤ p.patients_per_week ∧ p.patients_per_week ≤ 1000 ∧
  1 ≤ p.admin_hours_per_week ∧ p.admin_hours_per_week ≤ 50

instance (p : ClinicParameters) : Decidable p.Valid := by
  unfold ClinicParameters.Valid; infer_instance

/-- JSON values, as returned by `json.loads` on the remote response body.
Only the shapes the claims exercise are represented (numbers, strings,
objects); subscripting any non-object raises in Python, which the lookup
below models by `none`. -/
inductive Json where
  | num (q : ℚ)
  | str (s : String)
  | obj (fields : List (String × Json))

/-- `j[k]` on a parsed JSON value: a key lookup on a dict, and a raised
`TypeError` (modelled `none`) on any non-dict. A missing key is a raised
`KeyError`, also `none`. -/
def Json.lookup : Json → String → Option Json
  | .obj fields, k => List.lookup k fields
  | _, _ => none

/-- Outcome of the remote path's `try` block up to and including
`json.loads` (lines 87–97): the module-level `client` is `None`
(no credential, line 13); or some exception was raised inside the `try`
(network/API error, or `json.loads` on a non-JSON body — e.g.
`json.loads` applied to the string `not json` raises `JSONDecodeError`);
or `json.loads` succeeded and produced a JSON value. -/
inductive RemoteOutcome where
  | noCredential : RemoteOutcome
  | exn (msg : String) : RemoteOutcome
  | parsed (j : Json) : RemoteOutcome

/-- The fixed fallback tip string (line 104). -/
def fallbackTip : String :=
  "Consider delegating repetitive admin tasks to save time."

/-- The inline notice of line 100, shown when the `try` block raised. -/
def noticeText (msg : String) : String :=
  "OpenAI API unavailable, using fallback values. (" ++ msg ++ ")"

/-- The fallback dict built on lines 102–109:
`time_saved_per_week = admin_hours_per_week * u` where `u` is the
`np.random.uniform(0.25, 0.45)` draw, `total_time_saved =
time_saved_per_week * clinic_size`, and the fixed tip. -/
def fallbackInsights (p : ClinicParameters) (u : ℚ) : Json :=
  let time_saved_per_week : ℚ := (p.admin_hours_per_week : ℚ) * u
  let total_time_saved : ℚ := time_saved_per_week * (p.clinician_count : ℚ)
  .obj [("time_saved_per_week", .num time_saved_per_week),
        ("total_time_saved", .num total_time_saved),
        ("tip", .str fallbackTip)]

/-- `get_ai_insights()` (lines 86–109). Returns the insights value together
with the list of inline notices written by `st.markdown` on the error
branch. With a parsed remote body the parsed value is returned as-is
(line 98); with no credential the fallback is computed silently; with an
exception the notice of line 100 is written and the fallback is computed. -/
def get_ai_insights (p : ClinicParameters) (u : ℚ) :
    RemoteOutcome → Json × List String
  | .noCredential => (fallbackInsights p u, [])
  | .exn msg => (fallbackInsights p u, [noticeText msg])
  | .parsed j => (j, [])

/-- The three subscripts of lines 112–114
(`insights[k]` for the three keys), performed by the module body outside
any `try`: `none` models an unhandled `KeyError`/`TypeError` aborting the
page render. -/
def subscriptFields (j : Json) : Option (Json × Json × Json) := do
  let t ← j.lookup "time_saved_per_week"
  let tot ← j.lookup "total_time_saved"
  let tip ← j.lookup "tip"
  pure (t, tot, tip)

/-- The whole resolution as executed by the module body (lines 111–114):
`get_ai_insights` followed by the three key subscripts. First component
`none` means the render aborted with an unhandled exception; the second
component is the list of visible inline notices produced. -/
def resolveInsights (p : ClinicParameters) (u : ℚ) (r : RemoteOutcome) :
    Option (Json × Json × Json) × List String :=
  let gi := get_ai_insights p u r
  (subscriptFields gi.1, gi.2)

/-- A `np.random.uniform(lo, hi)` draw lies in the half-open interval
`[lo, hi)` (numpy's documented range). -/
def UniformDraw (lo hi u : ℚ) : Prop := lo ≤ u ∧ u < hi

instance (lo hi u : ℚ) : Decidable (UniformDraw lo hi u) := by
  unfold UniformDraw; infer_instance

/-- The decimal digit character of `d % 10`, as produced by Python's
string formatting of numbers. -/
def digitChar (d : ℕ) : Char :=
  match d % 10 with
  | 0 => Char.mk 48 (by decide)
  | 1 => Char.mk 49 (by decide)
  | 2 => Char.mk 50 (by decide)
  | 3 => Char.mk 51 (by decide)
  | 4 => Char.mk 52 (by decide)
  | 5 => Char.mk 53 (by decide)
  | 6 => Char.mk 54 (by decide)
  | 7 => Char.mk 55 (by decide)
  | 8 => Char.mk 56 (by decide)
  | _ => Char.mk 57 (by decide)

/-- Decimal digit list of a natural number, fuel-indexed so the recursion
is structural; with fuel `n + 1` all digits of `n` are produced. -/
def natDigitsAux : ℕ → ℕ → List Char
  | 0, _ => []
  | fuel + 1, n =>
      if n < 10 then [digitChar n]
      else natDigitsAux fuel (n / 10) ++ [digitChar (n % 10)]

/-- Python's `str` on a nonnegative int, as interpolated by the f-strings
of the source. -/
def natToString (n : ℕ) : String := String.mk (natDigitsAux (n + 1) n)

/-- Python's `f"{x:.1f}"` formatting of a number: the value rounded to one
decimal place and printed with exactly one digit after the point.
(Python rounds ties to even on the underlying binary float; this model
rounds ties up, which affects no claim — every claim about this function
concerns only the characters produced.) -/
def formatFix1 (q : ℚ) : String :=
  let t : ℤ := round (q * 10)
  (if t < 0 then "-" else "")
    ++ natToString (t.natAbs / 10) ++ "." ++ natToString (t.natAbs % 10)

/-- The per-clinician chart sample of lines 122–125: labels
`Clinician i+1` for `i in range(clinic_size)`, values the
`np.random.uniform(time_saved_per_week*0.8, time_saved_per_week*1.2,
size=clinic_size)` draws, one per clinician. -/
def perClinicianSample (clinic_size : ℕ) (draws : ℕ → ℚ) :
    List (String × ℚ) :=
  (List.range clinic_size).map
    (fun i => ("Clinician " ++ natToString (i + 1), draws i))

/-- A character the Latin-1 codec can encode: code point at most 255. -/
def latin1Byte (c : Char) : Bool := c.toNat ≤ 255

/-- A string `.encode` with the `latin1` codec accepts: every character is
Latin-1-encodable. -/
def latin1OK (s : String) : Bool := s.data.all latin1Byte

/-- The text lines `create_pdf` writes into the PDF buffer via `pdf.cell`
(lines 150–162): the title, the six labeled fact lines, the section line,
and one line per row of `df`. -/
def pdfCellTexts (clinic_size patients_per_week admin_hours_per_week : ℕ)
    (time_saved_per_week total_time_saved : ℚ) (tip : String)
    (df : List (String × ℚ)) : List String :=
  ["AI Clinic Time-Saver Report",
   "Number of clinicians: " ++ natToString clinic_size,
   "Average patients per week: " ++ natToString patients_per_week,
   "Admin hours per clinician per week: " ++ natToString admin_hours_per_week,
   "Estimated admin time saved per clinician per week: "
     ++ formatFix1 time_saved_per_week ++ " hours",
   "Total admin time saved for clinic per week: "
     ++ formatFix1 total_time_saved ++ " hours",
   "Quick Tip: " ++ tip,
   "Visualized Savings:"]
  ++ df.map (fun row => row.1 ++ ": " ++ formatFix1 row.2 ++ " hours saved")

/-- `create_pdf` (lines 145–164). The FPDF buffer holds the cell texts;
`pdf.output(dest=S).encode(latin1)` (line 163) raises
`UnicodeEncodeError` — modelled `none` — exactly when some character of
some cell text is outside Latin-1's range; otherwise the byte sequence of
the document is produced. No sanitization, truncation, or recovery is
performed. -/
def create_pdf (clinic_size patients_per_week admin_hours_per_week : ℕ)
    (time_saved_per_week total_time_saved : ℚ) (tip : String)
    (df : List (String × ℚ)) : Option (List ℕ) :=
  let texts := pdfCellTexts clinic_size patients_per_week
    admin_hours_per_week time_saved_per_week total_time_saved tip df
  if texts.all latin1OK then
    some ((texts.map String.data).flatten.map Char.toNat)
  else
    none

/-! ## Helper lemmas -/

/-- Subscripting the fallback dict always succeeds and yields the formula
values of lines 102–108. -/
theorem subscriptFields_fallbackInsights (p : ClinicParameters) (u : ℚ) :
    subscriptFields (fallbackInsights p u)
      = some (.num ((p.admin_hours_per_week : ℚ) * u),
              .num ((p.admin_hours_per_week : ℚ) * u * (p.clinician_count : ℚ)),
              .str fallbackTip) := by
  simp [subscriptFields, fallbackInsights, Json.lookup, List.lookup]

/-- Every character `digitChar` produces is Latin-1-encodable. -/
theorem latin1Byte_digitChar (d : ℕ) : latin1Byte (digitChar d) = true := by
  unfold digitChar; split <;> decide

/-- Every character of a decimal digit list is Latin-1-encodable. -/
theorem latin1OK_natDigitsAux (fuel n : ℕ) :
    (natDigitsAux fuel n).all latin1Byte = true := by
  induction fuel generalizing n with
  | zero => rfl
  | succ fuel ih =>
      unfold natDigitsAux
      split
      · simp [latin1Byte_digitChar]
      · simp [List.all_append, ih, latin1Byte_digitChar]

/-- `str` of a nonnegative int is Latin-1-encodable. -/
theorem latin1OK_natToString (n : ℕ) : latin1OK (natToString n) = true :=
  latin1OK_natDigitsAux (n + 1) n

/-- Latin-1-encodability distributes over string concatenation. -/
theorem latin1OK_append (s s2 : String) :
    latin1OK (s ++ s2) = (latin1OK s && latin1OK s2) := by
  simp [latin1OK, String.data_append, List.all_append]

/-- A one-decimal formatted number is Latin-1-encodable, whatever its
value. -/
theorem latin1OK_formatFix1 (q : ℚ) : latin1OK (formatFix1 q) = true := by
  show latin1OK ((if round (q * 10) < 0 then "-" else "")
    ++ natToString ((round (q * 10)).natAbs / 10) ++ "."
    ++ natToString ((round (q * 10)).natAbs % 10)) = true
  rw [latin1OK_append, latin1OK_append, latin1OK_append]
  rw [latin1OK_natToString, latin1OK_natToString]
  split <;> decide

/-! ## Claims -/

/-- C1: the claim that `resolve` is total — in particular that a remote
response parsing as JSON but lacking one of the three keys falls through
to the local fallback — is FALSE on the code: `json.loads` succeeds inside
the `try` block and `get_ai_insights` returns the parsed value, so the
missing-key subscript happens at lines 112–114, outside any handler, and
raises to the caller. Concretely, with parameters (5, 200, 10), draw 3/10
and a configured remote returning the JSON object with the single key
`note`, the resolution aborts (`none`) instead of producing the fallback
result. -/
theorem resolve_missing_keys_raises :
    (resolveInsights ⟨5, 200, 10⟩ (3/10)
        (.parsed (.obj [("note", .str "hi")]))).1 = none ∧
    (resolveInsights ⟨5, 200, 10⟩ (3/10)
        (.parsed (.obj [("note", .str "hi")]))).1
      ≠ some (.num 3, .num 15, .str fallbackTip) :=
  ⟨rfl, fun h => Option.noConfusion h⟩

/-- C1 (amended): the resolution never raises to the caller — no
credential, a remote exception, and a remote body that fails JSON parsing
all fall through to the fallback — EXCEPT when the remote body parses as
JSON on which one of the three key subscripts fails; exactly then the
error propagates unhandled and the render aborts. -/
theorem resolve_total_except_missing_keys (p : ClinicParameters) (u : ℚ)
    (r : RemoteOutcome) :
    (resolveInsights p u r).1 = none ↔
      ∃ j, r = .parsed j ∧ subscriptFields j = none := by
  cases r with
  | noCredential =>
      simp [resolveInsights, get_ai_insights, subscriptFields_fallbackInsights]
  | exn msg =>
      simp [resolveInsights, get_ai_insights, subscriptFields_fallbackInsights]
  | parsed j =>
      simp [resolveInsights, get_ai_insights]

/-- C2: for every valid `ClinicParameters`, with the fallback path forced
(no credential), the produced result satisfies
`total_time_saved = time_saved_per_week * clinician_count` exactly. -/
theorem fallback_total_eq_tsw_mul_count (p : ClinicParameters)
    (hp : p.Valid) (u : ℚ) (hu : UniformDraw (1/4) (9/20) u) :
    ∃ t T s, (resolveInsights p u .noCredential).1
        = some (.num t, .num T, .str s) ∧
      T = t * (p.clinician_count : ℚ) :=
  ⟨_, _, _, subscriptFields_fallbackInsights p u, rfl⟩

/-- Witness for C2 at parameters (5, 200, 10) and draw 3/10. -/
theorem fallback_total_eq_tsw_mul_count_witness :
    (⟨5, 200, 10⟩ : ClinicParameters).Valid ∧
    UniformDraw (1/4) (9/20) (3/10) ∧
    ∃ t T s, (resolveInsights ⟨5, 200, 10⟩ (3/10) .noCredential).1
        = some (.num t, .num T, .str s) ∧
      T = t * (((⟨5, 200, 10⟩ : ClinicParameters).clinician_count : ℕ) : ℚ) :=
  ⟨by decide, by constructor <;> norm_num [UniformDraw],
    fallback_total_eq_tsw_mul_count ⟨5, 200, 10⟩ (by decide) (3/10)
      (by constructor <;> norm_num [UniformDraw])⟩

/-- C3: for every valid `ClinicParameters`, with the fallback path forced,
`time_saved_per_week` lies in
`[0.25 * admin_hours_per_week, 0.45 * admin_hours_per_week]` and
`total_time_saved` lies in the same interval scaled by
`clinician_count`. -/
theorem fallback_tsw_bounds (p : ClinicParameters)
    (hp : p.Valid) (u : ℚ) (hu : UniformDraw (1/4) (9/20) u) :
    ∃ t T s, (resolveInsights p u .noCredential).1
        = some (.num t, .num T, .str s) ∧
      (1/4 : ℚ) * p.admin_hours_per_week ≤ t ∧
      t ≤ (9/20 : ℚ) * p.admin_hours_per_week ∧
      (1/4 : ℚ) * ((p.admin_hours_per_week : ℚ) * p.clinician_count) ≤ T ∧
      T ≤ (9/20 : ℚ) * ((p.admin_hours_per_week : ℚ) * p.clinician_count) := by
  obtain ⟨h1, h2⟩ := hu
  have ha : (0 : ℚ) ≤ p.admin_hours_per_week := Nat.cast_nonneg _
  have hc : (0 : ℚ) ≤ p.clinician_count := Nat.cast_nonneg _
  refine ⟨_, _, _, subscriptFields_fallbackInsights p u,
    ?_, ?_, ?_, ?_⟩ <;>
    nlinarith [h2.le, mul_nonneg ha hc,
      mul_le_mul_of_nonneg_right (mul_le_mul_of_nonneg_left h1 ha) hc,
      mul_le_mul_of_nonneg_right (mul_le_mul_of_nonneg_left h2.le ha) hc]

/-- Witness for C3: Scenario A's inputs (5, 200, 10) with draw 3/10 give
`time_saved_per_week ∈ [2.5, 4.5]` and `total_time_saved ∈ [12.5, 22.5]`. -/
theorem fallback_tsw_bounds_witness :
    (⟨5, 200, 10⟩ : ClinicParameters).Valid ∧
    UniformDraw (1/4) (9/20) (3/10) ∧
    ∃ t T s, (resolveInsights ⟨5, 200, 10⟩ (3/10) .noCredential).1
        = some (.num t, .num T, .str s) ∧
      (5/2 : ℚ) ≤ t ∧ t ≤ 9/2 ∧ (25/2 : ℚ) ≤ T ∧ T ≤ 45/2 := by
  refine ⟨by decide, by constructor <;> norm_num [UniformDraw], ?_⟩
  obtain ⟨t, T, s, h0, h1, h2, h3, h4⟩ :=
    fallback_tsw_bounds ⟨5, 200, 10⟩ (by decide) (3/10)
      (by constructor <;> norm_num [UniformDraw])
  norm_num at h1 h2 h3 h4
  exact ⟨t, T, s, h0, h1, h2, h3, h4⟩

/-- C4: whenever the configured remote call's `try` block raises — any
network/API error, and in particular `json.loads` on a malformed body such
as the string `not json` — the resolution is exactly the local fallback
formula, the inline notice of line 100 naming the error is emitted, and
the render is not aborted. -/
theorem exn_falls_back_with_notice (p : ClinicParameters) (u : ℚ)
    (msg : String) :
    resolveInsights p u (.exn msg)
      = (some (.num ((p.admin_hours_per_week : ℚ) * u),
               .num ((p.admin_hours_per_week : ℚ) * u * (p.clinician_count : ℚ)),
               .str fallbackTip),
         [noticeText msg]) ∧
    (resolveInsights p u (.exn msg)).1 ≠ none := by
  have h := subscriptFields_fallbackInsights p u
  refine ⟨?_, ?_⟩
  · simp [resolveInsights, get_ai_insights, h]
  · simp [resolveInsights, get_ai_insights, h]

/-- C5: when the remote body parses as JSON and all three key subscripts
succeed, the resolution returns the parsed values verbatim — independently
of the clinic parameters and of the random draw, with no recomputation and
no invariant enforcement — and no notice is emitted. -/
theorem parsed_returned_verbatim (p : ClinicParameters) (u : ℚ) (j : Json)
    (t T s : Json) (h : subscriptFields j = some (t, T, s)) :
    (resolveInsights p u (.parsed j)).1 = some (t, T, s) ∧
    (resolveInsights p u (.parsed j)).2 = [] :=
  ⟨h, rfl⟩

/-- Scenario C's remote response body, parsed:
`{"time_saved_per_week": 3.2, "total_time_saved": 16.0, "tip": "Automate intake forms."}`. -/
def scenarioCJson : Json :=
  .obj [("time_saved_per_week", .num (16/5)),
        ("total_time_saved", .num 16),
        ("tip", .str "Automate intake forms.")]

/-- Witness for C5: Scenario C's response with parameters (5, 200, 10) is
returned verbatim. -/
theorem parsed_returned_verbatim_witness :
    subscriptFields scenarioCJson
      = some (.num (16/5), .num 16, .str "Automate intake forms.") ∧
    (resolveInsights ⟨5, 200, 10⟩ (3/10) (.parsed scenarioCJson)).1
      = some (.num (16/5), .num 16, .str "Automate intake forms.") ∧
    (resolveInsights ⟨5, 200, 10⟩ (3/10) (.parsed scenarioCJson)).2 = [] :=
  ⟨rfl,
   (parsed_returned_verbatim ⟨5, 200, 10⟩ (3/10) scenarioCJson _ _ _ rfl).1,
   (parsed_returned_verbatim ⟨5, 200, 10⟩ (3/10) scenarioCJson _ _ _ rfl).2⟩

/-- C6: with no credential the remote path is skipped silently — no notice
of any kind is emitted — and the fallback result is used; moreover a
notice can be emitted only by a configured remote call that failed (the
`exn` outcome). -/
theorem no_credential_silent_fallback (p : ClinicParameters) (u : ℚ) :
    (resolveInsights p u .noCredential).2 = [] ∧
    (resolveInsights p u .noCredential).1
      = some (.num ((p.admin_hours_per_week : ℚ) * u),
              .num ((p.admin_hours_per_week : ℚ) * u * (p.clinician_count : ℚ)),
              .str fallbackTip) ∧
    ∀ r : RemoteOutcome, (resolveInsights p u r).2 ≠ [] →
      ∃ msg, r = .exn msg := by
  refine ⟨rfl, subscriptFields_fallbackInsights p u, ?_⟩
  intro r hr
  cases r with
  | noCredential => exact absurd rfl hr
  | exn msg => exact ⟨msg, rfl⟩
  | parsed j => exact absurd rfl hr

/-- C7: the per-clinician sample has exactly `clinic_size` entries and
every entry's hours value is one of the `uniform(0.8*t, 1.2*t)` draws,
hence within `[0.8*t, 1.2*t]`. -/
theorem perClinicianSample_shape (clinic_size : ℕ)
    (hcs : 1 ≤ clinic_size ∧ clinic_size ≤ 100) (t : ℚ) (draws : ℕ → ℚ)
    (hd : ∀ i, i < clinic_size →
      (4/5 : ℚ) * t ≤ draws i ∧ draws i ≤ (6/5 : ℚ) * t) :
    (perClinicianSample clinic_size draws).length = clinic_size ∧
    ∀ pr ∈ perClinicianSample clinic_size draws,
      (4/5 : ℚ) * t ≤ pr.2 ∧ pr.2 ≤ (6/5 : ℚ) * t := by
  constructor
  · simp [perClinicianSample]
  · intro pr hpr
    simp only [perClinicianSample, List.mem_map, List.mem_range] at hpr
    obtain ⟨i, hi, rfl⟩ := hpr
    exact hd i hi

/-- Witness for C7: Scenario D, `clinic_size = 1`, yields exactly one
entry, within bounds. -/
theorem perClinicianSample_shape_witness :
    (1 ≤ 1 ∧ 1 ≤ 100) ∧
    (∀ i, i < 1 →
      (4/5 : ℚ) * 3 ≤ (fun _ => (3 : ℚ)) i ∧
      (fun _ => (3 : ℚ)) i ≤ (6/5 : ℚ) * 3) ∧
    ((perClinicianSample 1 (fun _ => (3 : ℚ))).length = 1 ∧
     ∀ pr ∈ perClinicianSample 1 (fun _ => (3 : ℚ)),
       (4/5 : ℚ) * 3 ≤ pr.2 ∧ pr.2 ≤ (6/5 : ℚ) * 3) := by
  refine ⟨by decide, fun i _ => by norm_num, ?_⟩
  exact perClinicianSample_shape 1 (by decide) 3 _ (fun i _ => by norm_num)

/-- C8: under the fallback path — no credential, or a configured remote
call that failed — the tip is always exactly the fixed string of
line 104. -/
theorem fallback_tip_fixed (p : ClinicParameters) (hp : p.Valid) (u : ℚ) :
    (∃ t T, (resolveInsights p u .noCredential).1 = some (.num t, .num T,
      .str "Consider delegating repetitive admin tasks to save time.")) ∧
    ∀ msg, ∃ t T, (resolveInsights p u (.exn msg)).1 = some (.num t, .num T,
      .str "Consider delegating repetitive admin tasks to save time.") :=
  ⟨⟨_, _, subscriptFields_fallbackInsights p u⟩,
   fun _ => ⟨_, _, subscriptFields_fallbackInsights p u⟩⟩

/-- Witness for C8 at parameters (5, 200, 10), draw 3/10. -/
theorem fallback_tip_fixed_witness :
    (⟨5, 200, 10⟩ : ClinicParameters).Valid ∧
    ((∃ t T, (resolveInsights ⟨5, 200, 10⟩ (3/10) .noCredential).1
        = some (.num t, .num T,
          .str "Consider delegating repetitive admin tasks to save time.")) ∧
     ∀ msg, ∃ t T, (resolveInsights ⟨5, 200, 10⟩ (3/10) (.exn msg)).1
        = some (.num t, .num T,
          .str "Consider delegating repetitive admin tasks to save time.")) :=
  ⟨by decide, fallback_tip_fixed ⟨5, 200, 10⟩ (by decide) (3/10)⟩

/-- A tip a remote response could supply, containing a character (the
white smiling face, code point 9786) outside Latin-1's range. -/
def nonLatin1Tip : String := "Automate intake forms. ☺"

/-- C9: `create_pdf` fails — the `encode(latin1)` of line 163 raises,
unhandled — on an input whose tip contains a character outside Latin-1's
range; no sanitization, truncation, or recovery is performed. Concretely,
with inputs (5, 200, 10), estimates 3 and 15, one sample row, and a tip
containing the character with code point 9786, the export aborts. -/
theorem create_pdf_nonlatin1_tip_fails :
    (∃ c ∈ nonLatin1Tip.data, 255 < c.toNat) ∧
    create_pdf 5 200 10 3 15 nonLatin1Tip [("Clinician 1", 3)] = none := by
  constructor
  · decide
  · have hbad : latin1OK ("Quick Tip: " ++ nonLatin1Tip) = false := by decide
    have hmem : ("Quick Tip: " ++ nonLatin1Tip)
        ∈ pdfCellTexts 5 200 10 3 15 nonLatin1Tip [("Clinician 1", 3)] := by
      simp [pdfCellTexts]
    have hall : (pdfCellTexts 5 200 10 3 15 nonLatin1Tip
        [("Clinician 1", 3)]).all latin1OK = false :=
      List.all_eq_false.mpr ⟨_, hmem, by simp [hbad]⟩
    simp [create_pdf, hall]

/-- C10: the whole fallback-path pipeline can never fail at export: the
fallback tip, the `Clinician i` labels, and every formatted numeric line
are Latin-1-encodable, so `create_pdf` succeeds on every estimate the
fallback path produces, whatever the parameters and random draws. -/
theorem fallback_export_never_fails (p : ClinicParameters) (hp : p.Valid)
    (u : ℚ) (hu : UniformDraw (1/4) (9/20) u) (draws : ℕ → ℚ) :
    ∃ t T, (resolveInsights p u .noCredential).1
        = some (.num t, .num T, .str fallbackTip) ∧
      ∃ bytes, create_pdf p.clinician_count p.patients_per_week
          p.admin_hours_per_week t T fallbackTip
          (perClinicianSample p.clinician_count draws) = some bytes := by
  refine ⟨_, _, subscriptFields_fallbackInsights p u, ?_⟩
  have hall : (pdfCellTexts p.clinician_count p.patients_per_week
      p.admin_hours_per_week ((p.admin_hours_per_week : ℚ) * u)
      ((p.admin_hours_per_week : ℚ) * u * (p.clinician_count : ℚ))
      fallbackTip (perClinicianSample p.clinician_count draws)).all
        latin1OK = true := by
    unfold pdfCellTexts
    rw [List.all_append]
    refine Bool.and_eq_true_iff.mpr ⟨?_, ?_⟩
    · simp only [List.all_cons, List.all_nil, latin1OK_append,
        latin1OK_natToString, latin1OK_formatFix1, Bool.and_true,
        Bool.true_and, Bool.and_eq_true]
      decide
    · rw [List.all_eq_true]
      intro x hx
      simp only [List.mem_map, perClinicianSample, List.mem_range] at hx
      obtain ⟨pr, ⟨i, hi, rfl⟩, rfl⟩ := hx
      simp only [latin1OK_append, latin1OK_natToString,
        latin1OK_formatFix1, Bool.and_true, Bool.true_and, Bool.and_eq_true]
      decide
  refine Option.isSome_iff_exists.mp ?_
  unfold create_pdf
  rw [if_pos hall]
  rfl

/-- Witness for C10 at parameters (5, 200, 10), draw 3/10, all jitter
draws equal to 3. -/
theorem fallback_export_never_fails_witness :
    (⟨5, 200, 10⟩ : ClinicParameters).Valid ∧
    UniformDraw (1/4) (9/20) (3/10) ∧
    ∃ t T, (resolveInsights ⟨5, 200, 10⟩ (3/10) .noCredential).1
        = some (.num t, .num T, .str fallbackTip) ∧
      ∃ bytes, create_pdf (⟨5, 200, 10⟩ : ClinicParameters).clinician_count
          (⟨5, 200, 10⟩ : ClinicParameters).patients_per_week
          (⟨5, 200, 10⟩ : ClinicParameters).admin_hours_per_week t T
          fallbackTip
          (perClinicianSample (⟨5, 200, 10⟩ : ClinicParameters).clinician_count
            (fun _ => (3 : ℚ)))
          = some bytes :=
  ⟨by decide, by constructor <;> norm_num [UniformDraw],
   fallback_export_never_fails ⟨5, 200, 10⟩ (by decide) (3/10)
     (by constructor <;> norm_num [UniformDraw]) (fun _ => (3 : ℚ))⟩

end AiClinicTimesaver
